import Mathlib

/-!
Shallow embedding of the `rss-fee` repository.

Two source files are embedded:

* `src/generate_feed.py` (namespace `RssFeed`): parses four RSS feeds,
  collects all entries, sorts them by `pubDate` descending with Python's
  `sorted(..., key=..., reverse=True)` (a stable sort), truncates to the
  first 50 and renders an RSS 2.0 channel.  Python's `sorted` is a stable
  sort; a stable sort with respect to a total preorder is unique, so it is
  embedded as `List.insertionSort` (also stable) over the relation
  "pubDate greater-or-equal".  External feed contents are an environment
  `String → List FeedItem` mapping each feed URL to its parsed entries.

* `src/scripts/generate_feed.py` (namespace `StockFeed`): fetches a quote
  snapshot per exchange via yfinance, circuit limits via the NSE API with a
  cookie warm-up, formats numbers with `fmt_num`, and writes a fixed
  two-element XML document with `write_xml`.  Network effects are an
  explicit environment: yfinance `fast_info` and `info` are dictionaries
  `String → Option PyFloat` per ticker (a raised lookup is the empty
  dictionary, i.e. constantly `none`), and the NSE interaction is an
  `NseEnv` recording whether the warm-up request succeeds and, if the quote
  request is reached, its response.  Python dictionaries of strings are
  embedded as association lists with `lookup`/`getD`, matching `dict.get`.
-/

namespace RssFeed

/-- An entry collected from a parsed feed: `title`, `link`, `description`
(`e.get("summary", "")`) and `pubDate` (`datetime(*e.published_parsed[:6])`,
embedded as a natural-number timestamp since Python datetimes are totally
ordered). -/
structure FeedItem where
  title : String
  link : String
  description : String
  pubDate : Nat
deriving DecidableEq

/-- The four feed URLs of the `feeds` list in `src/generate_feed.py`. -/
def feeds : List String :=
  ["https://www.livemint.com/rss/markets",
   "https://www.livemint.com/rss/news",
   "https://www.moneycontrol.com/rss/latestnews.xml",
   "https://www.moneycontrol.com/rss/mostpopular.xml"]

/-- The sort relation realised by
`sorted(all_items, key=lambda x: x["pubDate"], reverse=True)`:
`a` may come before `b` exactly when `b.pubDate ≤ a.pubDate`. -/
def pubGe (a b : FeedItem) : Prop := b.pubDate ≤ a.pubDate

instance : DecidableRel pubGe := fun a b =>
  inferInstanceAs (Decidable (b.pubDate ≤ a.pubDate))

instance : IsTotal FeedItem pubGe := ⟨fun a b => Nat.le_total b.pubDate a.pubDate⟩

instance : IsTrans FeedItem pubGe := ⟨fun _ _ _ h1 h2 => Nat.le_trans h2 h1⟩

/-- The `all_items` accumulator: the nested `for url in feeds: for e in
data.entries: all_items.append(...)` loop, with the parse results supplied by
the environment `env : String → List FeedItem`. -/
def all_items (env : String → List FeedItem) : List FeedItem :=
  (feeds.map env).flatten

/-- The merge step of `src/generate_feed.py` line 23:
`top50 = sorted(all_items, key=lambda x: x["pubDate"], reverse=True)[:50]`.
`sorted` with `reverse=True` is a stable descending sort by the key, embedded
as the (stable) `insertionSort` over `pubGe`; `[:50]` is `take 50`. -/
def top50 (items : List FeedItem) : List FeedItem :=
  (items.insertionSort pubGe).take 50

/-- One `<item>` element of the output channel: title, link, description,
guid (the link again) and pubDate, exactly the five `SubElement` calls of the
output loop. -/
structure RssItem where
  title : String
  link : String
  description : String
  guid : String
  pubDate : Nat
deriving DecidableEq

/-- The `<channel>` element: its four fixed header children and the list of
`<item>` children. -/
structure RssChannel where
  title : String
  link : String
  description : String
  lastBuildDate : String
  items : List RssItem

/-- The item-building loop `for item in top50: ...`. -/
def rss_items (top : List FeedItem) : List RssItem :=
  top.map fun it => ⟨it.title, it.link, it.description, it.link, it.pubDate⟩

/-- The channel construction of `src/generate_feed.py` lines 25-41, with the
wall-clock `lastBuildDate` supplied by the caller. -/
def rss_channel (now : String) (top : List FeedItem) : RssChannel :=
  ⟨"Combined Indian Markets Feed",
   "https://rss-fee.netlify.app/feed.xml",
   "Top 50 items from LiveMint and Moneycontrol",
   now,
   rss_items top⟩

/-- The ordering the spec claims for the merge step (spec wording, for
comparison with `top50`): `observedAt` descending, ties broken by symbol
ascending; an item's symbol is its title. -/
def specMergeOrder (a b : FeedItem) : Prop :=
  b.pubDate < a.pubDate ∨ (a.pubDate = b.pubDate ∧ a.title ≤ b.title)

instance : DecidableRel specMergeOrder := fun a b =>
  inferInstanceAs (Decidable (b.pubDate < a.pubDate ∨ (a.pubDate = b.pubDate ∧ a.title ≤ b.title)))

/-- An environment in which every feed fails to parse (feedparser returns an
object with no entries), so every per-feed entry list is empty. -/
def emptyEnv : String → List FeedItem := fun _ => []

end RssFeed

namespace StockFeed

/-- A Python float value as it flows through `fmt_num`: NaN, either
infinity, or a finite value (embedded as a rational). -/
inductive PyFloat
| nan
| inf
| negInf
| val (q : ℚ)
deriving DecidableEq

/-- Python truthiness of a float: `0.0` is falsy, everything else (NaN and
infinities included) is truthy. -/
def pyTruthy : PyFloat → Bool
| .val q => q ≠ 0
| _ => true

/-- Python `str()` of a float: integral floats print with a trailing `.0`
as Python does; a non-integral finite value keeps the rational rendering of
the value the float denotes (no theorem inspects a non-empty volume
string). -/
def pyStr : PyFloat → String
| .nan => "nan"
| .inf => "inf"
| .negInf => "-inf"
| .val q => if q.den = 1 then toString q.num ++ ".0" else toString q

/-- Round a rational to the nearest integer, ties to even, as Python's
float formatting does. -/
def roundHalfEven (q : ℚ) : ℤ :=
  let fl := ⌊q⌋
  let fr := q - fl
  if fr < 1/2 then fl
  else if 1/2 < fr then fl + 1
  else if fl % 2 = 0 then fl else fl + 1

/-- Render a natural number below 100 as exactly two digits. -/
def twoDigits (k : ℕ) : String :=
  if k < 10 then "0" ++ toString k else toString k

/-- `fmt_num` from `src/scripts/generate_feed.py` lines 33-37: `None`, NaN
and the infinities map to the empty string, a finite value is formatted with
two decimals (`f"{x:.2f}"`), the sign taken from the value itself so that a
negative value rounding to zero prints as `-0.00` as in Python; the float is
treated as the rational it denotes. -/
def fmt_num : Option PyFloat → String
| none => ""
| some .nan => ""
| some .inf => ""
| some .negInf => ""
| some (.val q) =>
  let n := roundHalfEven (q * 100)
  (if q < 0 then "-" else "") ++ toString (n.natAbs / 100) ++ "." ++ twoDigits (n.natAbs % 100)

/-- A band dictionary of the NSE quote JSON: its Python truthiness
(whether the dictionary has any key at all) and its optional `lower` and
`upper` values. -/
structure PriceBand where
  hasKeys : Bool
  lower : Option ℚ
  upper : Option ℚ

/-- The empty band dictionary `\x7b\x7d`: falsy, no values. -/
def emptyBand : PriceBand := ⟨false, none, none⟩

/-- Python `x or y or \x7b\x7d` on band dictionaries: the first truthy
(non-empty) dictionary, else the literal empty one. -/
def pyOrBand (x y : PriceBand) : PriceBand :=
  if x.hasKeys then x else if y.hasKeys then y else emptyBand

/-- The NSE quote JSON body, as read by `fetch_nse_circuits`:
`data.get("priceBand", \x7b\x7d) or data.get("priceband", \x7b\x7d) or \x7b\x7d`. -/
structure QuoteJson where
  priceBand : Option PriceBand
  priceband : Option PriceBand

/-- The response of the NSE quote request, when the request itself does not
raise: its HTTP status and its body (`none` when `r.json()` raises because
the body is not JSON). -/
structure NseResp where
  status : Nat
  body : Option QuoteJson

/-- The NSE-side network environment of one `fetch_nse_circuits` call:
whether the warm-up `s.get("https://www.nseindia.com/", ...)` succeeds, and
the quote request's outcome (`none` when the request raises a network
error). -/
structure NseEnv where
  warmupOk : Bool
  resp : Option NseResp

/-- The value returned by `fetch_nse_circuits` on any failure. -/
def emptyCircuits : List (String × String) :=
  [("lower_circuit", ""), ("upper_circuit", "")]

/-- `fetch_nse_circuits` from `src/scripts/generate_feed.py` lines 131-159:
warm-up request, quote request, `raise_for_status()` (which raises exactly
for statuses 400-599), `r.json()`, the price-band `or`-chain (a present but
empty `priceBand` falls through to `priceband`), and the value extraction;
the single `except Exception` turns every failure on that path into the
empty-circuit dictionary. -/
def fetch_nse_circuits (env : NseEnv) : List (String × String) :=
  if env.warmupOk then
    match env.resp with
    | none => emptyCircuits
    | some r =>
      if 400 ≤ r.status ∧ r.status < 600 then emptyCircuits
      else
        match r.body with
        | none => emptyCircuits
        | some data =>
          let band := pyOrBand (data.priceBand.getD emptyBand) (data.priceband.getD emptyBand)
          [("lower_circuit", match band.lower with
                             | some l => fmt_num (some (.val l))
                             | none => ""),
           ("upper_circuit", match band.upper with
                             | some u => fmt_num (some (.val u))
                             | none => "")]
  else emptyCircuits

/-- How many quote-API requests one `fetch_nse_circuits` call issues: the
quote request is reached exactly when the warm-up did not raise, and the
source contains no loop or retry around it. -/
def nse_api_attempts (env : NseEnv) : Nat :=
  if env.warmupOk then 1 else 0

/-- A `fetch_nse_circuits` call whose fetch fails: the warm-up raises, the
quote request raises, `raise_for_status` fires (status in 400-599), or the
body is not JSON. -/
def nse_fetch_failed (env : NseEnv) : Prop :=
  env.warmupOk = false ∨ env.resp = none ∨
    ∃ r, env.resp = some r ∧ ((400 ≤ r.status ∧ r.status < 600) ∨ r.body = none)

/-- The full network environment of one acquisition pass: the wall clock
(`now_ist_iso()`), the yfinance `fast_info` and `info` dictionaries per
ticker (a raised access is the empty dictionary, hence constantly `none`),
and the NSE environment. -/
structure FetchEnv where
  now : String
  fi : String → String → Option PyFloat
  info : String → String → Option PyFloat
  nse : NseEnv

/-- The nested helper `g(key, *alts)` of `fetch_yf_snapshot`: first key with
a non-`None` value in `fast_info`, else first such key in `info`, else
`None`. -/
def g (fi info : String → Option PyFloat) (keys : List String) : Option PyFloat :=
  match keys.findSome? fi with
  | some v => some v
  | none => keys.findSome? info

/-- `fetch_yf_snapshot` from `src/scripts/generate_feed.py` lines 91-129:
the returned dictionary, formatted with `fmt_num` except for `volume`, which
is `str(g("volume", "regularMarketVolume") or "")`. -/
def fetch_yf_snapshot (env : FetchEnv) (ticker : String) : List (String × String) :=
  let fi := env.fi ticker
  let info := env.info ticker
  [("open", fmt_num (g fi info ["open", "regularMarketOpen"])),
   ("prev_close", fmt_num (g fi info ["previousClose", "regularMarketPreviousClose"])),
   ("todays_low", fmt_num (g fi info ["dayLow", "regularMarketDayLow"])),
   ("todays_high", fmt_num (g fi info ["dayHigh", "regularMarketDayHigh"])),
   ("week52_low", fmt_num (g fi info ["yearLow", "fiftyTwoWeekLow"])),
   ("week52_high", fmt_num (g fi info ["yearHigh", "fiftyTwoWeekHigh"])),
   ("volume", match g fi info ["volume", "regularMarketVolume"] with
              | none => ""
              | some v => if pyTruthy v then pyStr v else "")]

/-- `make_record` from `src/scripts/generate_feed.py` lines 161-184:
exchange-to-ticker suffixing (a `ValueError` for any other exchange is
`none`), the yfinance snapshot, circuits for NSE only, and the record
dictionary in its construction order. -/
def make_record (env : FetchEnv) (exchange symbol : String) : Option (List (String × String)) :=
  (if exchange = "NSE" then some (symbol ++ ".NS")
   else if exchange = "BSE" then some (symbol ++ ".BO")
   else none).map fun yf_ticker =>
    let snap := fetch_yf_snapshot env yf_ticker
    let circuits := if exchange = "NSE" then fetch_nse_circuits env.nse else emptyCircuits
    [("timestamp", env.now), ("exchange", exchange), ("symbol", symbol.toUpper)]
      ++ snap ++ circuits

/-- The two records produced by one `run_once` pass (lines 200-214): one
`make_record` call per exchange, NSE first, `none` if either call raises. -/
def run_once_records (env : FetchEnv) (symbol : String) :
    Option (List (List (String × String))) :=
  match make_record env "NSE" symbol, make_record env "BSE" symbol with
  | some nse, some bse => some [nse, bse]
  | _, _ => none

/-- Python `dict.get(k, "")` on a string-valued record dictionary. -/
def dget (r : List (String × String)) (k : String) : String :=
  (r.lookup k).getD ""

/-- Python `records.get(ex, \x7b\x7d)` on the two-record dictionary handed to
`write_xml`. -/
def rget (records : List (String × List (String × String))) (ex : String) :
    List (String × String) :=
  (records.lookup ex).getD []

/-- One line appended by `write_xml`, kept structured so that the document's
shape is observable; `renderLine` produces the exact source text. -/
inductive XmlLine
| decl
| feedOpen (generatedAt : String)
| stockOpen (exchange symbol : String)
| fieldTag (tag value : String)
| stockClose
| feedClose
deriving DecidableEq

/-- The exact text of each `lines.append(...)` f-string in `write_xml`. -/
def renderLine : XmlLine → String
| .decl => "<?xml version=\"1.0\" encoding=\"UTF-8\"?>"
| .feedOpen ts => "<stockFeed generatedAt=\"" ++ ts ++ "\">"
| .stockOpen ex sym => "  <stock exchange=\"" ++ ex ++ "\" symbol=\"" ++ sym ++ "\">"
| .fieldTag t v => "    <" ++ t ++ ">" ++ v ++ "</" ++ t ++ ">"
| .stockClose => "  </stock>"
| .feedClose => "</stockFeed>"

/-- The body of `write_xml`'s `for ex in ["NSE", "BSE"]` loop: the opening
`<stock>` tag with `r.get("symbol", "")`, the nine field tags in source
order, and the closing tag. -/
def stock_lines (ex : String) (r : List (String × String)) : List XmlLine :=
  [.stockOpen ex (dget r "symbol"),
   .fieldTag "open" (dget r "open"),
   .fieldTag "prevClose" (dget r "prev_close"),
   .fieldTag "todaysLow" (dget r "todays_low"),
   .fieldTag "todaysHigh" (dget r "todays_high"),
   .fieldTag "week52Low" (dget r "week52_low"),
   .fieldTag "week52High" (dget r "week52_high"),
   .fieldTag "volume" (dget r "volume"),
   .fieldTag "lowerCircuit" (dget r "lower_circuit"),
   .fieldTag "upperCircuit" (dget r "upper_circuit"),
   .stockClose]

/-- `write_xml` from `src/scripts/generate_feed.py` lines 66-89: the XML
declaration, the `<stockFeed>` opening tag with the generation timestamp,
the loop over the literal list `["NSE", "BSE"]`, and the closing tag. -/
def write_xml_lines (ts : String) (records : List (String × List (String × String))) :
    List XmlLine :=
  [.decl, .feedOpen ts]
    ++ stock_lines "NSE" (rget records "NSE")
    ++ stock_lines "BSE" (rget records "BSE")
    ++ [.feedClose]

/-- The document text: `"\n".join(lines)`. -/
def write_xml_text (ts : String) (records : List (String × List (String × String))) :
    String :=
  String.intercalate "\n" ((write_xml_lines ts records).map renderLine)

/-- The `(exchange, symbol)` attributes of the `<stock>` opening tags of a
document, in order. -/
def stock_opens : List XmlLine → List (String × String)
| [] => []
| .stockOpen ex sym :: ls => (ex, sym) :: stock_opens ls
| _ :: ls => stock_opens ls

/-- The tag names of the field lines of a document, in order. -/
def field_tags (ls : List XmlLine) : List String :=
  ls.filterMap fun l => match l with
    | .fieldTag t _ => some t
    | _ => none

/-- The values of the field lines of a document, in order. -/
def field_values (ls : List XmlLine) : List String :=
  ls.filterMap fun l => match l with
    | .fieldTag _ v => some v
    | _ => none

/-- A pass environment whose NSE warm-up request raises and in which every
yfinance lookup is absent. -/
def warmupFailEnv : FetchEnv :=
  ⟨"2026-01-01T00:00:00+05:30", fun _ _ => none, fun _ _ => none, ⟨false, none⟩⟩

/-- A pass environment in which every upstream value is absent and the NSE
path succeeds with an empty price band. -/
def noDataEnv : FetchEnv :=
  ⟨"2026-01-01T00:00:00+05:30", fun _ _ => none, fun _ _ => none,
   ⟨true, some ⟨200, some ⟨none, none⟩⟩⟩⟩

end StockFeed

/-- C2: the spec claims the merge deduplicates by symbol keeping the entry
with the latest observedAt. The code performs no deduplication: for two
entries of the same instrument (same title and link) with pubDates 1 < 2,
the merged output contains both entries — the older entry is retained, not
dropped. -/
theorem c2_dedup_counterexample :
    RssFeed.top50 [⟨"RELIANCE", "https://x/a", "", 1⟩, ⟨"RELIANCE", "https://x/a", "", 2⟩] =
      [⟨"RELIANCE", "https://x/a", "", 2⟩, ⟨"RELIANCE", "https://x/a", "", 1⟩] ∧
    (⟨"RELIANCE", "https://x/a", "", 1⟩ : RssFeed.FeedItem) ∈
      RssFeed.top50 [⟨"RELIANCE", "https://x/a", "", 1⟩, ⟨"RELIANCE", "https://x/a", "", 2⟩] := by
  decide

/-- C2 amended: the merge performs no deduplication at all — whenever the
input fits inside the top-50 truncation, the merged output is a permutation
of the input, so every duplicate entry (any mix of symbols and timestamps)
is retained. -/
theorem c2_no_dedup (xs : List RssFeed.FeedItem) (h : xs.length ≤ 50) :
    (RssFeed.top50 xs).Perm xs := by
  unfold RssFeed.top50
  rw [List.take_of_length_le (by rw [List.length_insertionSort]; exact h)]
  exact List.perm_insertionSort _ xs

/-- Witness for `c2_no_dedup` at a duplicate pair. -/
theorem c2_no_dedup_witness :
    (RssFeed.top50 [⟨"AAA", "la", "", 1⟩, ⟨"AAA", "la", "", 2⟩]).Perm
      [⟨"AAA", "la", "", 1⟩, ⟨"AAA", "la", "", 2⟩] :=
  c2_no_dedup [⟨"AAA", "la", "", 1⟩, ⟨"AAA", "la", "", 2⟩] (by decide)

/-- C3: the spec claims timestamp ties are broken by symbol ascending. The
code's sort is stable on ties: for two items with equal pubDate whose titles
are in descending order in the input, the output keeps the input order and
is therefore not sorted by the spec's tie-breaking order. -/
theorem c3_tiebreak_counterexample :
    RssFeed.top50 [⟨"BBB", "lb", "", 5⟩, ⟨"AAA", "la", "", 5⟩] =
      [⟨"BBB", "lb", "", 5⟩, ⟨"AAA", "la", "", 5⟩] ∧
    ¬ List.Sorted RssFeed.specMergeOrder
        (RssFeed.top50 [⟨"BBB", "lb", "", 5⟩, ⟨"AAA", "la", "", 5⟩]) := by
  refine ⟨rfl, fun hs => ?_⟩
  rw [show RssFeed.top50 [⟨"BBB", "lb", "", 5⟩, ⟨"AAA", "la", "", 5⟩] =
        [⟨"BBB", "lb", "", 5⟩, ⟨"AAA", "la", "", 5⟩] from rfl] at hs
  have h : RssFeed.specMergeOrder ⟨"BBB", "lb", "", 5⟩ ⟨"AAA", "la", "", 5⟩ :=
    List.rel_of_sorted_cons hs _ (List.mem_singleton.mpr rfl)
  rcases h with h | ⟨-, h⟩
  · exact absurd h (lt_irrefl 5)
  · rw [String.le_iff_toList_le] at h
    exact absurd h (by decide)

/-- C3 amended: the merge sorts by pubDate descending and truncates to 50,
but timestamp ties keep the original input order (the sort is stable), with
no symbol-based tie-break: the output is pubDate-descending sorted, has
length `min 50 (input length)`, and any input pair `[a, b]` admissible for
the descending order (in particular any tie, in input order) survives as a
sublist of the sorted sequence. -/
theorem c3_stable_sort_truncate (xs : List RssFeed.FeedItem) (a b : RssFeed.FeedItem)
    (hab : RssFeed.pubGe a b) (hsub : List.Sublist [a, b] xs) :
    List.Sorted RssFeed.pubGe (RssFeed.top50 xs) ∧
    (RssFeed.top50 xs).length = min 50 xs.length ∧
    List.Sublist [a, b] (xs.insertionSort RssFeed.pubGe) := by
  refine ⟨?_, ?_, List.pair_sublist_insertionSort hab hsub⟩
  · exact List.Pairwise.sublist (List.take_sublist _ _) (List.sorted_insertionSort _ xs)
  · unfold RssFeed.top50
    rw [List.length_take, List.length_insertionSort]

/-- Witness for `c3_stable_sort_truncate` at a concrete tied pair. -/
theorem c3_stable_sort_truncate_witness :
    List.Sorted RssFeed.pubGe
      (RssFeed.top50 [⟨"BBB", "lb", "", 5⟩, ⟨"AAA", "la", "", 5⟩]) ∧
    (RssFeed.top50 [⟨"BBB", "lb", "", 5⟩, ⟨"AAA", "la", "", 5⟩]).length =
      min 50 ([⟨"BBB", "lb", "", 5⟩, ⟨"AAA", "la", "", 5⟩] : List RssFeed.FeedItem).length ∧
    List.Sublist [(⟨"BBB", "lb", "", 5⟩ : RssFeed.FeedItem), ⟨"AAA", "la", "", 5⟩]
      (([⟨"BBB", "lb", "", 5⟩, ⟨"AAA", "la", "", 5⟩] : List RssFeed.FeedItem).insertionSort
        RssFeed.pubGe) :=
  c3_stable_sort_truncate [⟨"BBB", "lb", "", 5⟩, ⟨"AAA", "la", "", 5⟩]
    ⟨"BBB", "lb", "", 5⟩ ⟨"AAA", "la", "", 5⟩ (by decide) (by decide)

/-- C6: when every feed yields nothing (all fetches failed), the merge
returns the empty list as its normal value and the RSS channel is built
normally with zero item elements — no error value exists on this path. -/
theorem c6_all_failed_empty_feed (env : String → List RssFeed.FeedItem)
    (h : ∀ u, env u = []) (now : String) :
    RssFeed.all_items env = [] ∧
    RssFeed.top50 (RssFeed.all_items env) = [] ∧
    (RssFeed.rss_channel now (RssFeed.top50 (RssFeed.all_items env))).items = [] := by
  have hall : RssFeed.all_items env = [] := by
    simp [RssFeed.all_items, RssFeed.feeds, h]
  refine ⟨hall, ?_, ?_⟩ <;>
    simp [hall, RssFeed.top50, RssFeed.rss_channel, RssFeed.rss_items]

/-- Witness for `c6_all_failed_empty_feed` at the all-feeds-failed
environment. -/
theorem c6_all_failed_empty_feed_witness :
    RssFeed.all_items RssFeed.emptyEnv = [] ∧
    RssFeed.top50 (RssFeed.all_items RssFeed.emptyEnv) = [] ∧
    (RssFeed.rss_channel "t" (RssFeed.top50 (RssFeed.all_items RssFeed.emptyEnv))).items = [] :=
  c6_all_failed_empty_feed RssFeed.emptyEnv (fun _ => rfl) "t"

/-- C8: the merge is idempotent under re-merging its own output: sorting the
already-sorted, already-truncated output again and truncating again returns
it unchanged. -/
theorem c8_merge_idempotent (xs : List RssFeed.FeedItem) :
    RssFeed.top50 (RssFeed.top50 xs) = RssFeed.top50 xs := by
  have hs : List.Sorted RssFeed.pubGe (RssFeed.top50 xs) :=
    List.Pairwise.sublist (List.take_sublist _ _) (List.sorted_insertionSort _ xs)
  show (List.insertionSort RssFeed.pubGe (RssFeed.top50 xs)).take 50 = RssFeed.top50 xs
  rw [hs.insertionSort_eq]
  unfold RssFeed.top50
  simp [List.take_take]

/-- C1: one acquisition pass produces exactly one record per input, however
the individual fetches fail: for every network environment (any failure
mix) and any symbol, `run_once` yields exactly the two records of its fixed
input list — the NSE one and the BSE one — and a record whose fetches fail
is still present (with empty field values) rather than dropped. -/
theorem c1_one_record_per_input (env : StockFeed.FetchEnv) (symbol : String) :
    ∃ nse bse, StockFeed.run_once_records env symbol = some [nse, bse] ∧
      StockFeed.dget nse "exchange" = "NSE" ∧
      StockFeed.dget bse "exchange" = "BSE" ∧
      (StockFeed.run_once_records env symbol).map List.length = some 2 :=
  ⟨_, _, rfl, rfl, rfl, rfl⟩

/-- C4: the spec claims a non-terminal failure at attempt 1 yields
RetryAfter (a further attempt), and GiveUp only at attempt ≥ 3 or after a
post-renewal auth failure. In the code, a first-attempt network error on
the quote request already terminates the fetch: exactly one quote request
is made, no second attempt occurs, and the empty-circuit failure result is
returned at attempt 1. -/
theorem c4_retry_counterexample :
    StockFeed.nse_api_attempts ⟨true, none⟩ = 1 ∧
    ¬ 2 ≤ StockFeed.nse_api_attempts ⟨true, none⟩ ∧
    StockFeed.fetch_nse_circuits ⟨true, none⟩ = StockFeed.emptyCircuits := by
  decide

/-- C4 amended: there is no retry policy — a fetch makes at most one quote
request, and any failure (failed warm-up, network error, HTTP status in the
400-599 error band that `raise_for_status` raises for, non-JSON body), at
what is necessarily attempt 1, immediately yields the empty-circuit result,
with no renewal, backoff or further attempt. -/
theorem c4_no_retry_policy (env : StockFeed.NseEnv) (h : StockFeed.nse_fetch_failed env) :
    StockFeed.nse_api_attempts env ≤ 1 ∧
    StockFeed.fetch_nse_circuits env = StockFeed.emptyCircuits := by
  constructor
  · unfold StockFeed.nse_api_attempts
    split <;> omega
  · rcases h with h | h | ⟨r, hr, hf⟩
    · simp [StockFeed.fetch_nse_circuits, h]
    · cases hw : env.warmupOk <;> simp [StockFeed.fetch_nse_circuits, h, hw]
    · rcases hf with ⟨hs1, hs2⟩ | hb
      · cases hw : env.warmupOk <;> simp [StockFeed.fetch_nse_circuits, hr, hw, hs1, hs2]
      · cases hw : env.warmupOk <;> simp [StockFeed.fetch_nse_circuits, hr, hw, hb]

/-- Witness for `c4_no_retry_policy` at a network-error environment. -/
theorem c4_no_retry_policy_witness :
    StockFeed.nse_api_attempts ⟨true, none⟩ ≤ 1 ∧
    StockFeed.fetch_nse_circuits ⟨true, none⟩ = StockFeed.emptyCircuits :=
  c4_no_retry_policy ⟨true, none⟩ (Or.inr (Or.inl rfl))

/-- C5: the spec claims a warm-up failure is fatal, aborting the cycle
before any fetch. In the code it is swallowed: with the warm-up raising, no
quote request is made, the circuit fetch returns the ordinary empty-circuit
value, and the whole cycle still completes with both records. -/
theorem c5_warmup_counterexample :
    StockFeed.nse_api_attempts StockFeed.warmupFailEnv.nse = 0 ∧
    StockFeed.fetch_nse_circuits StockFeed.warmupFailEnv.nse = StockFeed.emptyCircuits ∧
    (StockFeed.run_once_records StockFeed.warmupFailEnv "RELIANCE").isSome = true ∧
    (StockFeed.run_once_records StockFeed.warmupFailEnv "RELIANCE").map List.length = some 2 :=
  ⟨rfl, rfl, rfl, rfl⟩

/-- C5 amended: a warm-up failure is not fatal and aborts nothing — it is
caught inside the circuit fetcher, which skips the quote request, returns
empty circuit values, and lets the acquisition cycle complete normally. -/
theorem c5_warmup_not_fatal (env : StockFeed.FetchEnv) (symbol : String)
    (h : env.nse.warmupOk = false) :
    StockFeed.nse_api_attempts env.nse = 0 ∧
    StockFeed.fetch_nse_circuits env.nse = StockFeed.emptyCircuits ∧
    (StockFeed.run_once_records env symbol).isSome = true := by
  refine ⟨?_, ?_, rfl⟩
  · simp [StockFeed.nse_api_attempts, h]
  · simp [StockFeed.fetch_nse_circuits, h]

/-- Witness for `c5_warmup_not_fatal` at the warm-up-failure environment. -/
theorem c5_warmup_not_fatal_witness :
    StockFeed.nse_api_attempts StockFeed.warmupFailEnv.nse = 0 ∧
    StockFeed.fetch_nse_circuits StockFeed.warmupFailEnv.nse = StockFeed.emptyCircuits ∧
    (StockFeed.run_once_records StockFeed.warmupFailEnv "RELIANCE").isSome = true :=
  c5_warmup_not_fatal StockFeed.warmupFailEnv "RELIANCE" rfl

/-- C7: an absent numeric value (None, NaN or an infinity) is formatted as
the empty string — never as "0" — by `fmt_num`; a record field missing from
a record dictionary is emitted by `write_xml` as the empty string; the
rendered field line is `<open></open>` with empty content; and an upstream
value absent from both yfinance dictionaries reaches the snapshot as the
empty string. -/
theorem c7_absent_propagates (v : Option StockFeed.PyFloat)
    (hv : v = none ∨ v = some .nan ∨ v = some .inf ∨ v = some .negInf)
    (r : List (String × String)) (hr : r.lookup "open" = none)
    (env : StockFeed.FetchEnv) (ticker : String)
    (hfi : ∀ k, env.fi ticker k = none) (hinfo : ∀ k, env.info ticker k = none) :
    StockFeed.fmt_num v = "" ∧ StockFeed.fmt_num v ≠ "0" ∧
    StockFeed.dget r "open" = "" ∧
    (StockFeed.stock_lines "NSE" r)[1]? = some (.fieldTag "open" "") ∧
    StockFeed.renderLine (.fieldTag "open" "") = "    <open></open>" ∧
    (StockFeed.fetch_yf_snapshot env ticker).lookup "open" = some "" := by
  have hd : StockFeed.dget r "open" = "" := by simp [StockFeed.dget, hr]
  have hg : StockFeed.g (env.fi ticker) (env.info ticker) ["open", "regularMarketOpen"] = none := by
    simp [StockFeed.g, hfi, hinfo]
  refine ⟨?_, ?_, hd, ?_, rfl, ?_⟩
  · rcases hv with rfl | rfl | rfl | rfl <;> rfl
  · rcases hv with rfl | rfl | rfl | rfl <;> decide
  · simp [StockFeed.stock_lines, hd]
  · simp [StockFeed.fetch_yf_snapshot, hg, StockFeed.fmt_num]

/-- Witness for `c7_absent_propagates` at the all-absent environment. -/
theorem c7_absent_propagates_witness :
    StockFeed.fmt_num none = "" ∧ StockFeed.fmt_num none ≠ "0" ∧
    StockFeed.dget [] "open" = "" ∧
    (StockFeed.stock_lines "NSE" [])[1]? = some (.fieldTag "open" "") ∧
    StockFeed.renderLine (.fieldTag "open" "") = "    <open></open>" ∧
    (StockFeed.fetch_yf_snapshot StockFeed.noDataEnv "RELIANCE.NS").lookup "open" = some "" :=
  c7_absent_propagates none (Or.inl rfl) [] rfl StockFeed.noDataEnv "RELIANCE.NS"
    (fun _ => rfl) (fun _ => rfl)

/-- C10: for every records dictionary (with the missing-exchange case
evaluated at the empty dictionary), `write_xml` emits exactly two stock
elements, in the fixed order NSE then BSE, each carrying the full fixed set
of nine field tags in source order; a missing exchange record yields an
element with empty symbol attribute and all eighteen field values empty
rather than an omitted element. -/
theorem c10_write_xml_shape (ts : String)
    (recs : List (String × List (String × String))) :
    StockFeed.stock_opens (StockFeed.write_xml_lines ts recs) =
      [("NSE", StockFeed.dget (StockFeed.rget recs "NSE") "symbol"),
       ("BSE", StockFeed.dget (StockFeed.rget recs "BSE") "symbol")] ∧
    StockFeed.field_tags (StockFeed.write_xml_lines ts recs) =
      ["open", "prevClose", "todaysLow", "todaysHigh", "week52Low", "week52High",
       "volume", "lowerCircuit", "upperCircuit",
       "open", "prevClose", "todaysLow", "todaysHigh", "week52Low", "week52High",
       "volume", "lowerCircuit", "upperCircuit"] ∧
    StockFeed.stock_opens (StockFeed.write_xml_lines ts []) = [("NSE", ""), ("BSE", "")] ∧
    StockFeed.field_values (StockFeed.write_xml_lines ts []) = List.replicate 18 "" :=
  ⟨rfl, rfl, rfl, rfl⟩
